import Mathlib

/-!
# Carbon footprint tracker: emissions calculation and ranking engine

A shallow embedding, over exact rational arithmetic, of the emissions
calculation and aggregation logic of the carboni repository:

* `CarbonCalculations.calculateEmissions` — the client-side calculator
  (`client/src/lib/carbonCalculations.ts`);
* `Routes.calculateEmissions` — the server-side calculator defined in the
  Express routes module; its JavaScript numbers may be NaN (an unrecognized
  transport type makes `EMISSION_FACTORS.transport[key]` come out
  `undefined`, and `undefined * distance` is NaN), so its values live in
  `Option ℚ` with `none` standing for NaN;
* `Routes.reductionPercentage` — the month-over-month reduction percentage
  computed by the dashboard route;
* `Storage.getLeaderboard` / `Storage.getUserRank` — the SQL aggregation
  queries of the storage module (`DatabaseStorage`), modelled over an
  in-memory list of activity rows.  The current-month window
  (`startOfMonth`, `endOfMonth`), which the source derives from the wall
  clock, is passed in as a pair of abstract date bounds; dates are
  abstracted to naturals ordered like the ISO date strings the source
  compares.

JavaScript `Math.round` rounds half toward positive infinity, which on
rationals is `⌊q + 1/2⌋`; the pervasive `Math.round(x * 100) / 100` is
`round2`.
-/

/-- JavaScript `Math.round`: round to the nearest integer, halves toward
positive infinity. -/
def jsRound (q : ℚ) : ℤ := ⌊q + 1 / 2⌋

/-- The pattern `Math.round(x * 100) / 100`: round to two decimal places. -/
def round2 (q : ℚ) : ℚ := (jsRound (q * 100) : ℚ) / 100

/-- Raw inputs of one activity record (the `ActivityData` interface /
the validated request body).  Every field is optional. -/
structure ActivityData where
  transportType : Option String
  transportDistance : Option ℚ
  electricityUsage : Option ℚ
  naturalGasUsage : Option ℚ
  beefServings : Option ℚ
  chickenServings : Option ℚ
  vegetableServings : Option ℚ
deriving DecidableEq

/-- JavaScript truthiness of an optional string field: present and
nonempty. -/
def strTruthy : Option String → Bool
  | none => false
  | some s => decide (s ≠ "")

/-- JavaScript truthiness of an optional numeric field: present and
nonzero. -/
def numTruthy : Option ℚ → Bool
  | none => false
  | some q => decide (q ≠ 0)

namespace EMISSION_FACTORS

/-- The `EMISSION_FACTORS.transport` table: per-mile factor keyed by
transport type; `none` models the `undefined` a lookup of an unrecognized
key produces.  The identical constant appears in both the client library
and the server routes module. -/
def transport : String → Option ℚ
  | "car_gasoline" => some 0.39
  | "car_electric" => some 0.13
  | "bus" => some 0.07
  | "train" => some 0.045
  | "bike" => some 0
  | "walking" => some 0
  | _ => none

/-- The constant `EMISSION_FACTORS.energy.electricity` (kg CO2e per kWh). -/
def electricity : ℚ := 0.37

/-- The constant `EMISSION_FACTORS.energy.naturalGas` (kg CO2e per therm). -/
def naturalGas : ℚ := 5.3

/-- The constant `EMISSION_FACTORS.food.beef` (kg CO2e per kg). -/
def beef : ℚ := 30.4

/-- The constant `EMISSION_FACTORS.food.chicken` (kg CO2e per kg). -/
def chicken : ℚ := 4.2

/-- The constant `EMISSION_FACTORS.food.vegetables` (kg CO2e per kg). -/
def vegetables : ℚ := 1.0

end EMISSION_FACTORS

namespace CarbonCalculations

/-- Output record of the client-side calculator. -/
structure EmissionResults where
  transportEmissions : ℚ
  energyEmissions : ℚ
  foodEmissions : ℚ
  totalEmissions : ℚ
deriving DecidableEq

/-- Transport term of the client calculator: guarded by truthiness of both
fields, and by the explicit `factor !== undefined` check, so an
unrecognized type leaves the accumulator at `0`. -/
def rawTransport (data : ActivityData) : ℚ :=
  if strTruthy data.transportType && numTruthy data.transportDistance then
    match EMISSION_FACTORS.transport (data.transportType.getD ("")) with
    | some factor => factor * data.transportDistance.getD 0
    | none => 0
  else 0

/-- Energy accumulator of the client calculator (each `if` guards one
`+=`). -/
def rawEnergy (data : ActivityData) : ℚ :=
  (if numTruthy data.electricityUsage then
    EMISSION_FACTORS.electricity * data.electricityUsage.getD 0
  else 0) +
  (if numTruthy data.naturalGasUsage then
    EMISSION_FACTORS.naturalGas * data.naturalGasUsage.getD 0
  else 0)

/-- Food accumulator of the client calculator (serving masses 0.5 kg beef,
0.2 kg chicken, 0.15 kg vegetables). -/
def rawFood (data : ActivityData) : ℚ :=
  (if numTruthy data.beefServings then
    EMISSION_FACTORS.beef * 0.5 * data.beefServings.getD 0
  else 0) +
  (if numTruthy data.chickenServings then
    EMISSION_FACTORS.chicken * 0.2 * data.chickenServings.getD 0
  else 0) +
  (if numTruthy data.vegetableServings then
    EMISSION_FACTORS.vegetables * 0.15 * data.vegetableServings.getD 0
  else 0)

/-- The client-side `calculateEmissions` of `carbonCalculations.ts`: the
three raw accumulators, their raw sum, and all four rounded to two
decimals on output. -/
def calculateEmissions (data : ActivityData) : EmissionResults :=
  let transportEmissions := rawTransport data
  let energyEmissions := rawEnergy data
  let foodEmissions := rawFood data
  let totalEmissions := transportEmissions + energyEmissions + foodEmissions
  { transportEmissions := round2 transportEmissions
    energyEmissions := round2 energyEmissions
    foodEmissions := round2 foodEmissions
    totalEmissions := round2 totalEmissions }

end CarbonCalculations

namespace Routes

/-- A JavaScript number that may be NaN (`none`). -/
abbrev JsNum := Option ℚ

/-- JavaScript addition with NaN propagation. -/
def jsAdd : JsNum → JsNum → JsNum
  | some a, some b => some (a + b)
  | _, _ => none

/-- Rounding `Math.round(x * 100) / 100` on a possibly-NaN value; `Math.round(NaN)`
is NaN. -/
def round2N : JsNum → JsNum :=
  Option.map round2

/-- Output record of the server-side calculator; fields may be NaN. -/
structure EmissionResults where
  transportEmissions : JsNum
  energyEmissions : JsNum
  foodEmissions : JsNum
  totalEmissions : JsNum
deriving DecidableEq

/-- Transport term of the server calculator: same truthiness guard as the
client, but no `factor !== undefined` check — for an unrecognized type the
source computes `undefined * distance`, which is NaN (`none`). -/
def rawTransport (data : ActivityData) : JsNum :=
  if strTruthy data.transportType && numTruthy data.transportDistance then
    (EMISSION_FACTORS.transport (data.transportType.getD (""))).map
      (fun factor => factor * data.transportDistance.getD 0)
  else some 0

/-- Energy accumulator of the server calculator (textually identical to
the client's). -/
def rawEnergy (data : ActivityData) : ℚ :=
  (if numTruthy data.electricityUsage then
    EMISSION_FACTORS.electricity * data.electricityUsage.getD 0
  else 0) +
  (if numTruthy data.naturalGasUsage then
    EMISSION_FACTORS.naturalGas * data.naturalGasUsage.getD 0
  else 0)

/-- Food accumulator of the server calculator (textually identical to the
client's). -/
def rawFood (data : ActivityData) : ℚ :=
  (if numTruthy data.beefServings then
    EMISSION_FACTORS.beef * 0.5 * data.beefServings.getD 0
  else 0) +
  (if numTruthy data.chickenServings then
    EMISSION_FACTORS.chicken * 0.2 * data.chickenServings.getD 0
  else 0) +
  (if numTruthy data.vegetableServings then
    EMISSION_FACTORS.vegetables * 0.15 * data.vegetableServings.getD 0
  else 0)

/-- The server-side `calculateEmissions` of the routes module.  Energy and
food never produce NaN from well-formed numeric inputs; transport (and
hence the total) can. -/
def calculateEmissions (data : ActivityData) : EmissionResults :=
  let transportEmissions := rawTransport data
  let energyEmissions : JsNum := some (rawEnergy data)
  let foodEmissions : JsNum := some (rawFood data)
  let totalEmissions := jsAdd (jsAdd transportEmissions energyEmissions) foodEmissions
  { transportEmissions := round2N transportEmissions
    energyEmissions := round2N energyEmissions
    foodEmissions := round2N foodEmissions
    totalEmissions := round2N totalEmissions }

/-- Month-over-month reduction percentage of the dashboard route:
`emissionsLastMonth > 0 ? Math.round(((last - this) / last) * 100) : 0`. -/
def reductionPercentage (emissionsLastMonth emissionsThisMonth : ℚ) : ℤ :=
  if 0 < emissionsLastMonth then
    jsRound ((emissionsLastMonth - emissionsThisMonth) / emissionsLastMonth * 100)
  else 0

end Routes

/-- One row of the `activities` table, restricted to the columns the
aggregation queries read.  `date` abstracts the ISO date string (string
comparison on ISO dates is date order, so a linearly ordered ℕ stands in
for it); `totalEmissions` is the stored precomputed total. -/
structure Activity where
  userId : String
  date : ℕ
  totalEmissions : ℚ
deriving DecidableEq

namespace Storage

/-- The `gte(activities.date, startOfMonth) ∧ lte(activities.date,
endOfMonth)` filter shared by the monthly queries. -/
def inMonth (startOfMonth endOfMonth : ℕ) (a : Activity) : Bool :=
  decide (startOfMonth ≤ a.date) && decide (a.date ≤ endOfMonth)

/-- The query `SELECT sum(total_emissions) FROM activities WHERE user_id = u AND
date BETWEEN s AND e`, with the source's `result[0]?.total || 0` making an
empty (NULL) sum come out `0`. -/
def monthTotal (acts : List Activity) (s e : ℕ) (u : String) : ℚ :=
  ((acts.filter (fun a => a.userId == u && inMonth s e a)).map
    Activity.totalEmissions).sum

/-- The distinct users owning at least one activity row in the window —
the groups produced by `GROUP BY user_id` over the windowed rows. -/
def usersActiveInMonth (acts : List Activity) (s e : ℕ) : List String :=
  ((acts.filter (inMonth s e)).map Activity.userId).dedup

/-- One element of the list `getLeaderboard` returns. -/
structure LeaderboardEntry where
  user : String
  totalEmissions : ℚ
  rank : ℕ
deriving DecidableEq

/-- The `ORDER BY sum(total_emissions) ASC` comparison on grouped rows
`(user, monthly total)`. -/
def byTotal (a b : String × ℚ) : Prop := a.2 ≤ b.2

instance : DecidableRel byTotal :=
  fun a b => inferInstanceAs (Decidable (a.2 ≤ b.2))

instance : IsTotal (String × ℚ) byTotal :=
  ⟨fun a b => le_total a.2 b.2⟩

instance : IsTrans (String × ℚ) byTotal :=
  ⟨fun _ _ _ h h2 => le_trans h h2⟩

/-- The mapping `result.map((row, index) => ({ user, totalEmissions, rank: index + 1
}))`: attach 1-based positions as ranks (the first call is with `i = 1`). -/
def attachRanks : ℕ → List (String × ℚ) → List LeaderboardEntry
  | _, [] => []
  | i, r :: rs => ⟨r.1, r.2, i⟩ :: attachRanks (i + 1) rs

/-- The method `DatabaseStorage.getLeaderboard`: join users to their current-month
activity rows (the WHERE clause on `activities.date` discards users with
no such rows, as in the source, where it turns the left join into an
inner join), group by user, sum, order ascending by the sum, cap at
`limit` (the source defaults `limit` to 10), and attach ranks 1, 2, ….
The relative order of groups with equal sums is not fixed by the SQL; the
model keeps them in `users`-list order. -/
def getLeaderboard (users : List String) (acts : List Activity) (s e limit : ℕ) :
    List LeaderboardEntry :=
  let rows := (users.filter (fun u =>
      acts.any (fun a => a.userId == u && inMonth s e a))).map
    (fun u => (u, monthTotal acts s e u))
  attachRanks 1 ((List.insertionSort byTotal rows).take limit)

/-- The method `DatabaseStorage.getUserRank`: the queried user's current-month total
(`|| 0` when they have no rows), then `1 +` the number of `GROUP BY
user_id` groups of current-month rows whose sum is strictly smaller. -/
def getUserRank (acts : List Activity) (s e : ℕ) (userId : String) : ℕ :=
  let userTotal := monthTotal acts s e userId
  let betterUsers := (usersActiveInMonth acts s e).filter
    (fun u => decide (monthTotal acts s e u < userTotal))
  betterUsers.length + 1

end Storage

/-! ## Helper lemmas -/

/-- A guarded accumulator term equals the unguarded product: an absent or
zero field contributes `0` either way. -/
theorem if_numTruthy_mul (c : ℚ) (o : Option ℚ) :
    (if numTruthy o then c * o.getD 0 else 0) = c * o.getD 0 := by
  cases o with
  | none => simp [numTruthy]
  | some q =>
    by_cases h : q = 0
    · simp [numTruthy, h]
    · simp [numTruthy, h]

/-- Rounding zero to two decimals gives zero. -/
theorem round2_zero : round2 0 = 0 := by
  norm_num [round2, jsRound]

/-! ## C6: month-over-month reduction percentage -/

/-- C6: the dashboard's reduction percentage equals
`jsRound ((last - this) / last * 100)` when `last > 0`, and equals `0`
whenever `last = 0`, whatever this month's total is. -/
theorem c6_reduction_percentage (emissionsLastMonth emissionsThisMonth : ℚ) :
    (0 < emissionsLastMonth →
      Routes.reductionPercentage emissionsLastMonth emissionsThisMonth =
        jsRound ((emissionsLastMonth - emissionsThisMonth) / emissionsLastMonth * 100)) ∧
    (emissionsLastMonth = 0 →
      Routes.reductionPercentage emissionsLastMonth emissionsThisMonth = 0) := by
  constructor
  · intro h
    simp [Routes.reductionPercentage, h]
  · intro h
    simp [Routes.reductionPercentage, h]

/-- Witness for C6 at last month 200, this month 150 and at last month 0,
this month 7. -/
theorem c6_reduction_percentage_witness :
    ((0 : ℚ) < 200 ∧ Routes.reductionPercentage 200 150 =
      jsRound (((200 : ℚ) - 150) / 200 * 100)) ∧
    ((0 : ℚ) = 0 ∧ Routes.reductionPercentage 0 7 = 0) :=
  ⟨⟨by norm_num, (c6_reduction_percentage 200 150).1 (by norm_num)⟩,
    ⟨rfl, (c6_reduction_percentage 0 7).2 rfl⟩⟩

/-! ## C1: the total-vs-parts rounding invariant -/

/-- Counterexample input for C1: a car_gasoline trip of 0.01 miles and
0.01 kWh of electricity. -/
def c1Data : ActivityData :=
  ⟨some ("car_gasoline"), some 0.01, some 0.01, none, none, none, none⟩

/-- C1 (counterexample): on `c1Data` the returned rounded fields are 0, 0,
0, yet `totalEmissions` is 0.01 — so `totalEmissions` is not `round2` of
the sum of the returned (already rounded) fields. -/
theorem c1_counterexample :
    (CarbonCalculations.calculateEmissions c1Data).transportEmissions = 0 ∧
    (CarbonCalculations.calculateEmissions c1Data).energyEmissions = 0 ∧
    (CarbonCalculations.calculateEmissions c1Data).foodEmissions = 0 ∧
    (CarbonCalculations.calculateEmissions c1Data).totalEmissions = 0.01 ∧
    round2 ((0 : ℚ) + 0 + 0) = 0 ∧ (0.01 : ℚ) ≠ 0 := by
  norm_num [c1Data, CarbonCalculations.calculateEmissions,
    CarbonCalculations.rawTransport, CarbonCalculations.rawEnergy,
    CarbonCalculations.rawFood, strTruthy, numTruthy, round2, jsRound,
    EMISSION_FACTORS.transport, EMISSION_FACTORS.electricity,
    show ("car_gasoline" : String) ≠ "" by decide]

/-- C1 (amended): `totalEmissions` equals `round2` of the sum of the three
unrounded category subtotals. -/
theorem c1_amended_total_rounds_raw_sum (data : ActivityData) :
    (CarbonCalculations.calculateEmissions data).totalEmissions =
      round2 (CarbonCalculations.rawTransport data +
        CarbonCalculations.rawEnergy data + CarbonCalculations.rawFood data) :=
  rfl

/-! ## C8: the food formula -/

/-- C8: `foodEmissions` is `round2` of
`30.4 × 0.5 × beef + 4.2 × 0.2 × chicken + 1.0 × 0.15 × vegetables`
(absent counts contributing 0), and two beef servings alone give 30.40. -/
theorem c8_food_formula :
    (∀ data : ActivityData,
      (CarbonCalculations.calculateEmissions data).foodEmissions =
        round2 ((30.4 : ℚ) * 0.5 * data.beefServings.getD 0 +
          (4.2 : ℚ) * 0.2 * data.chickenServings.getD 0 +
          (1.0 : ℚ) * 0.15 * data.vegetableServings.getD 0)) ∧
    (CarbonCalculations.calculateEmissions
      ⟨none, none, none, none, some 2, none, none⟩).foodEmissions = 30.40 := by
  constructor
  · intro data
    simp [CarbonCalculations.calculateEmissions, CarbonCalculations.rawFood,
      if_numTruthy_mul, EMISSION_FACTORS.beef, EMISSION_FACTORS.chicken,
      EMISSION_FACTORS.vegetables]
  · norm_num [CarbonCalculations.calculateEmissions, CarbonCalculations.rawFood,
      numTruthy, round2, jsRound, EMISSION_FACTORS.beef,
      EMISSION_FACTORS.chicken, EMISSION_FACTORS.vegetables]

/-! ## C7: transport on recognized types -/

/-- C7: with a recognized transport type and a present distance, the
client calculator returns `round2 (factor × distance)`; in particular
car_gasoline over 100 miles gives 39, and bike or walking give 0 at any
distance. -/
theorem c7_transport_recognized :
    (∀ (data : ActivityData) (t : String) (d factor : ℚ),
      data.transportType = some t → data.transportDistance = some d →
      EMISSION_FACTORS.transport t = some factor →
      (CarbonCalculations.calculateEmissions data).transportEmissions =
        round2 (factor * d)) ∧
    (CarbonCalculations.calculateEmissions
      ⟨some ("car_gasoline"), some 100, none, none, none, none, none⟩).transportEmissions
      = 39 ∧
    (∀ d : ℚ, (CarbonCalculations.calculateEmissions
      ⟨some ("bike"), some d, none, none, none, none, none⟩).transportEmissions = 0) ∧
    (∀ d : ℚ, (CarbonCalculations.calculateEmissions
      ⟨some ("walking"), some d, none, none, none, none, none⟩).transportEmissions = 0) := by
  refine ⟨?_, ?_, ?_, ?_⟩
  · intro data t d factor ht hd hf
    have htne : t ≠ "" := by
      intro h
      rw [h] at hf
      simp [EMISSION_FACTORS.transport] at hf
    by_cases hd0 : d = 0
    · subst hd0
      simp [CarbonCalculations.calculateEmissions, CarbonCalculations.rawTransport,
        ht, hd, numTruthy, round2_zero]
    · simp [CarbonCalculations.calculateEmissions, CarbonCalculations.rawTransport,
        ht, hd, strTruthy, numTruthy, htne, hd0, hf]
  · norm_num [CarbonCalculations.calculateEmissions, CarbonCalculations.rawTransport,
      strTruthy, numTruthy, round2, jsRound, EMISSION_FACTORS.transport,
      show ("car_gasoline" : String) ≠ "" by decide]
  · intro d
    by_cases hd0 : d = 0 <;>
      norm_num [CarbonCalculations.calculateEmissions, CarbonCalculations.rawTransport,
        strTruthy, numTruthy, hd0, round2, jsRound, EMISSION_FACTORS.transport,
        show ("bike" : String) ≠ "" by decide]
  · intro d
    by_cases hd0 : d = 0 <;>
      norm_num [CarbonCalculations.calculateEmissions, CarbonCalculations.rawTransport,
        strTruthy, numTruthy, hd0, round2, jsRound, EMISSION_FACTORS.transport,
        show ("walking" : String) ≠ "" by decide]

/-- Witness for C7 at a bus trip of 20 miles. -/
theorem c7_transport_recognized_witness :
    (⟨some ("bus"), some 20, none, none, none, none,
        none⟩ : ActivityData).transportType = some ("bus") ∧
    EMISSION_FACTORS.transport ("bus") = some 0.07 ∧
    (CarbonCalculations.calculateEmissions
      ⟨some ("bus"), some 20, none, none, none, none, none⟩).transportEmissions =
        round2 ((0.07 : ℚ) * 20) :=
  ⟨rfl, rfl, c7_transport_recognized.1 _ ("bus") 20 0.07 rfl rfl rfl⟩

/-! ## C2: unrecognized transport type -/

/-- Failing input for C2: an unrecognized transport type with a nonzero
distance. -/
def c2Data : ActivityData :=
  ⟨some ("scooter"), some 10, none, none, none, none, none⟩

/-- C2 (evaluation at the failing input): the server-side calculator
returns NaN (`none`) for `transportEmissions` and `totalEmissions` on an
unrecognized transport type, while the client-side calculator returns the
documented 0. -/
theorem c2_unrecognized_server_nan :
    (Routes.calculateEmissions c2Data).transportEmissions = none ∧
    (Routes.calculateEmissions c2Data).totalEmissions = none ∧
    (CarbonCalculations.calculateEmissions c2Data).transportEmissions = 0 := by
  refine ⟨rfl, rfl, ?_⟩
  have h : CarbonCalculations.rawTransport c2Data = 0 := rfl
  simp [CarbonCalculations.calculateEmissions, h, round2_zero]

/-! ## Lemmas about rank attachment -/

namespace Storage

/-- Attaching ranks preserves the number of entries. -/
theorem length_attachRanks (i : ℕ) (l : List (String × ℚ)) :
    (attachRanks i l).length = l.length := by
  induction l generalizing i with
  | nil => rfl
  | cons r rs ih => simp [attachRanks, ih]

/-- The users of the ranked entries are the users of the grouped rows. -/
theorem map_user_attachRanks (i : ℕ) (l : List (String × ℚ)) :
    (attachRanks i l).map LeaderboardEntry.user = l.map Prod.fst := by
  induction l generalizing i with
  | nil => rfl
  | cons r rs ih => simp [attachRanks, ih]

/-- The totals of the ranked entries are the totals of the grouped rows. -/
theorem map_total_attachRanks (i : ℕ) (l : List (String × ℚ)) :
    (attachRanks i l).map LeaderboardEntry.totalEmissions = l.map Prod.snd := by
  induction l generalizing i with
  | nil => rfl
  | cons r rs ih => simp [attachRanks, ih]

/-- The ranks attached starting at `i` are `i, i + 1, …`. -/
theorem map_rank_attachRanks (i : ℕ) (l : List (String × ℚ)) :
    (attachRanks i l).map LeaderboardEntry.rank = List.range' i l.length := by
  induction l generalizing i with
  | nil => rfl
  | cons r rs ih => simp [attachRanks, ih, List.range'_succ]

end Storage

/-! ## C3: rank = 1 + number of strictly-better active users -/

/-- C3: `getUserRank` returns one plus the number of distinct users other
than the queried one that own at least one current-month activity row and
whose current-month total is strictly below the queried user's. -/
theorem c3_user_rank (acts : List Activity) (s e : ℕ) (u : String) :
    Storage.getUserRank acts s e u =
      1 + ((Storage.usersActiveInMonth acts s e).filter (fun v =>
        decide (v ≠ u) &&
          decide (Storage.monthTotal acts s e v < Storage.monthTotal acts s e u))).length := by
  have h : ∀ v ∈ Storage.usersActiveInMonth acts s e,
      (decide (Storage.monthTotal acts s e v < Storage.monthTotal acts s e u)) =
        (decide (v ≠ u) &&
          decide (Storage.monthTotal acts s e v < Storage.monthTotal acts s e u)) := by
    intro v _
    by_cases hv : v = u
    · subst hv
      simp
    · simp [hv]
  simp only [Storage.getUserRank]
  rw [List.filter_congr h, Nat.add_comm]

/-! ## C4: users without current-month activity are absent -/

/-- C4: a user with no activity row in the current-month window neither
appears among the users of the leaderboard entries nor belongs to the set
of active users over which `getUserRank` counts. -/
theorem c4_zero_activity_excluded (users : List String) (acts : List Activity)
    (s e limit : ℕ) (u : String)
    (h : ∀ a ∈ acts, a.userId = u → Storage.inMonth s e a = false) :
    u ∉ (Storage.getLeaderboard users acts s e limit).map
      Storage.LeaderboardEntry.user ∧
    u ∉ Storage.usersActiveInMonth acts s e := by
  constructor
  · intro hmem
    simp only [Storage.getLeaderboard] at hmem
    rw [Storage.map_user_attachRanks] at hmem
    obtain ⟨p, hp, hpu⟩ := List.mem_map.1 hmem
    have hp2 : p ∈ List.insertionSort Storage.byTotal
        ((users.filter (fun v =>
          acts.any (fun a => a.userId == v && Storage.inMonth s e a))).map
          (fun v => (v, Storage.monthTotal acts s e v))) :=
      List.mem_of_mem_take hp
    rw [List.mem_insertionSort] at hp2
    obtain ⟨v, hv, hvp⟩ := List.mem_map.1 hp2
    rw [List.mem_filter] at hv
    obtain ⟨a, ha, hau⟩ := List.any_eq_true.1 hv.2
    rw [Bool.and_eq_true] at hau
    have hva : a.userId = v := eq_of_beq hau.1
    have hvu : v = u := by
      rw [← hpu, ← hvp]
    have hfalse := h a ha (by rw [hva, hvu])
    have htrue := hau.2
    rw [hfalse] at htrue
    exact Bool.false_ne_true htrue
  · intro hmem
    simp only [Storage.usersActiveInMonth] at hmem
    rw [List.mem_dedup] at hmem
    obtain ⟨a, ha, hau⟩ := List.mem_map.1 hmem
    rw [List.mem_filter] at ha
    have := h a ha.1 hau
    rw [this] at ha
    exact Bool.false_ne_true ha.2

/-- Witness for C4: user B's only activity row is dated outside the window
[1, 31], so B is in neither the leaderboard nor the active-user set. -/
theorem c4_zero_activity_excluded_witness :
    (∀ a ∈ [(⟨("A"), 5, 10⟩ : Activity), ⟨("B"), 40, 3⟩],
      a.userId = ("B") → Storage.inMonth 1 31 a = false) ∧
    (("B") ∉ (Storage.getLeaderboard [("A"), ("B")]
      [⟨("A"), 5, 10⟩, ⟨("B"), 40, 3⟩] 1 31 10).map
        Storage.LeaderboardEntry.user ∧
    ("B") ∉ Storage.usersActiveInMonth
      [(⟨("A"), 5, 10⟩ : Activity), ⟨("B"), 40, 3⟩] 1 31) :=
  ⟨by decide,
    c4_zero_activity_excluded [("A"), ("B")] [⟨("A"), 5, 10⟩, ⟨("B"), 40, 3⟩]
      1 31 10 ("B") (by decide)⟩

/-! ## C5: leaderboard shape -/

/-- C5: the leaderboard has at most `limit` entries, its totals are in
ascending order, the entry at 1-based position `i` carries rank `i`, and
for two users with monthly totals 100 kg and 50 kg it is the 50-kg user
with rank 1 followed by the 100-kg user with rank 2 (the source defaults
`limit` to 10 when the caller supplies none). -/
theorem c5_leaderboard_shape :
    (∀ (users : List String) (acts : List Activity) (s e limit : ℕ),
      (Storage.getLeaderboard users acts s e limit).length ≤ limit) ∧
    (∀ (users : List String) (acts : List Activity) (s e limit : ℕ),
      List.Chain' (fun x y => Storage.LeaderboardEntry.totalEmissions x ≤
        Storage.LeaderboardEntry.totalEmissions y)
        (Storage.getLeaderboard users acts s e limit)) ∧
    (∀ (users : List String) (acts : List Activity) (s e limit : ℕ),
      (Storage.getLeaderboard users acts s e limit).map
          Storage.LeaderboardEntry.rank =
        List.range' 1 (Storage.getLeaderboard users acts s e limit).length) ∧
    (Storage.getLeaderboard [("A"), ("B")]
        [⟨("A"), 15, 100⟩, ⟨("B"), 15, 50⟩] 1 31 10 =
      [⟨("B"), 50, 1⟩, ⟨("A"), 100, 2⟩]) := by
  refine ⟨?_, ?_, ?_, ?_⟩
  · intro users acts s e limit
    simp only [Storage.getLeaderboard]
    rw [Storage.length_attachRanks, List.length_take]
    exact min_le_left _ _
  · intro users acts s e limit
    have hs : List.Sorted Storage.byTotal (List.insertionSort Storage.byTotal
        ((users.filter (fun v =>
          acts.any (fun a => a.userId == v && Storage.inMonth s e a))).map
          (fun v => (v, Storage.monthTotal acts s e v)))) :=
      List.sorted_insertionSort _ _
    have ht := List.Pairwise.sublist (List.take_sublist limit _) hs
    have hc := ht.chain'
    simp only [Storage.getLeaderboard]
    rw [← List.chain'_map Storage.LeaderboardEntry.totalEmissions,
      Storage.map_total_attachRanks, List.chain'_map]
    exact hc
  · intro users acts s e limit
    simp only [Storage.getLeaderboard]
    rw [Storage.map_rank_attachRanks, Storage.length_attachRanks]
  · simp [Storage.getLeaderboard, Storage.monthTotal, Storage.inMonth]
    norm_num [Storage.byTotal, Storage.attachRanks]

/-! ## C9: equal totals and rank positions -/

/-- C9 (counterexample): two users tied at 50 kg both appear, with totals
[50, 50] but distinct ranks [1, 2] — tied users do not receive the same
numeric rank position. -/
theorem c9_counterexample :
    ((Storage.getLeaderboard [("A"), ("B")]
        [⟨("A"), 5, 50⟩, ⟨("B"), 6, 50⟩] 1 31 10).map
      Storage.LeaderboardEntry.totalEmissions = [50, 50]) ∧
    ((Storage.getLeaderboard [("A"), ("B")]
        [⟨("A"), 5, 50⟩, ⟨("B"), 6, 50⟩] 1 31 10).map
      Storage.LeaderboardEntry.rank = [1, 2]) ∧
    (1 : ℕ) ≠ 2 := by
  refine ⟨?_, ?_, by norm_num⟩ <;>
    · simp [Storage.getLeaderboard, Storage.monthTotal, Storage.inMonth]
      norm_num [Storage.byTotal, Storage.attachRanks]

/-- C9 (amended): every two leaderboard entries — tied totals included —
carry distinct numeric ranks, since ranks are the 1-based list positions. -/
theorem c9_amended_distinct_ranks (users : List String) (acts : List Activity)
    (s e limit : ℕ) :
    List.Pairwise (fun x y => Storage.LeaderboardEntry.rank x ≠
      Storage.LeaderboardEntry.rank y)
      (Storage.getLeaderboard users acts s e limit) := by
  have h : ((Storage.getLeaderboard users acts s e limit).map
      Storage.LeaderboardEntry.rank).Nodup := by
    simp only [Storage.getLeaderboard]
    rw [Storage.map_rank_attachRanks]
    exact List.nodup_range' 1 _
  exact List.pairwise_map.1 h

/-! ## C10: client/server agreement on recognized or absent types -/

/-- Transport terms of the two calculators agree whenever the type is
absent or its table lookup succeeds (the only divergence between the two
source functions is the client's `factor !== undefined` guard). -/
theorem rawTransport_agree (data : ActivityData)
    (h : data.transportType = none ∨
      ∃ f, EMISSION_FACTORS.transport (data.transportType.getD ("")) = some f) :
    Routes.rawTransport data = some (CarbonCalculations.rawTransport data) := by
  rcases h with h | ⟨f, hf⟩
  · simp [Routes.rawTransport, CarbonCalculations.rawTransport, h, strTruthy]
  · by_cases hg : (strTruthy data.transportType && numTruthy data.transportDistance) = true
    · simp [Routes.rawTransport, CarbonCalculations.rawTransport, hg, hf]
    · rw [Bool.not_eq_true] at hg
      simp [Routes.rawTransport, CarbonCalculations.rawTransport, hg]

/-- C10: on every input whose transport type is absent or one of the six
recognized keys, the server-side calculator returns exactly the
client-side results (no NaN), field for field. -/
theorem c10_client_server_agree (data : ActivityData)
    (h : data.transportType = none ∨
      data.transportType ∈ [some ("car_gasoline"), some ("car_electric"),
        some ("bus"), some ("train"), some ("bike"), some ("walking")]) :
    Routes.calculateEmissions data =
      { transportEmissions :=
          some (CarbonCalculations.calculateEmissions data).transportEmissions
        energyEmissions :=
          some (CarbonCalculations.calculateEmissions data).energyEmissions
        foodEmissions :=
          some (CarbonCalculations.calculateEmissions data).foodEmissions
        totalEmissions :=
          some (CarbonCalculations.calculateEmissions data).totalEmissions } := by
  have htr : Routes.rawTransport data = some (CarbonCalculations.rawTransport data) := by
    apply rawTransport_agree
    rcases h with h | h
    · exact Or.inl h
    · right
      simp only [List.mem_cons, List.not_mem_nil, or_false] at h
      rcases h with h | h | h | h | h | h <;> rw [h] <;> exact ⟨_, rfl⟩
  have hE : Routes.rawEnergy data = CarbonCalculations.rawEnergy data := rfl
  have hF : Routes.rawFood data = CarbonCalculations.rawFood data := rfl
  simp [Routes.calculateEmissions, CarbonCalculations.calculateEmissions, htr,
    hE, hF, Routes.jsAdd, Routes.round2N]

/-- Witness for C10 at a 50-mile electric-car trip with one beef serving. -/
theorem c10_client_server_agree_witness :
    ((⟨some ("car_electric"), some 50, none, none, some 1, none,
        none⟩ : ActivityData).transportType = none ∨
      (⟨some ("car_electric"), some 50, none, none, some 1, none,
        none⟩ : ActivityData).transportType ∈ [some ("car_gasoline"),
        some ("car_electric"), some ("bus"), some ("train"), some ("bike"),
        some ("walking")]) ∧
    Routes.calculateEmissions
        ⟨some ("car_electric"), some 50, none, none, some 1, none, none⟩ =
      { transportEmissions := some (CarbonCalculations.calculateEmissions
          ⟨some ("car_electric"), some 50, none, none, some 1, none,
            none⟩).transportEmissions
        energyEmissions := some (CarbonCalculations.calculateEmissions
          ⟨some ("car_electric"), some 50, none, none, some 1, none,
            none⟩).energyEmissions
        foodEmissions := some (CarbonCalculations.calculateEmissions
          ⟨some ("car_electric"), some 50, none, none, some 1, none,
            none⟩).foodEmissions
        totalEmissions := some (CarbonCalculations.calculateEmissions
          ⟨some ("car_electric"), some 50, none, none, some 1, none,
            none⟩).totalEmissions } :=
  ⟨Or.inr (by decide),
    c10_client_server_agree
      ⟨some ("car_electric"), some 50, none, none, some 1, none, none⟩
      (Or.inr (by decide))⟩
